import Mathlib

/-!
Verification of shortstat-dump (src/main.rs) against its specification.

The program walks commit history, filters commits by parent count and path
relevance, windows the result by skip/max-count, and optionally prints one
JSON shortstat line per surviving non-merge commit.  The repository-access
library (git2) is the black-box collaborator: it is modelled as a record of
capability functions (`Repo`), and the revision walker's output sequence is a
parameter (`walk`).  All fallible collaborator calls return `Except GitError`,
and the Rust `?` operator is translated as an explicit match that propagates
the error, exactly as it desugars.
-/

namespace ShortstatDump

/-- The library error type (git2::Error), carrying its display message. -/
structure GitError where
  msg : String
deriving DecidableEq, Repr

/-- A commit object: its id and the ordered ids of its parents. -/
structure Commit where
  id : Nat
  parents : List Nat
deriving DecidableEq, Repr

/-- git2::DiffStats: files changed, insertions, deletions. -/
structure DiffStats where
  files_changed : Nat
  insertions : Nat
  deletions : Nat
deriving DecidableEq, Repr

/-- A computed diff: its number of deltas, and the result of extracting its
stats (diff.stats() is itself fallible). -/
structure Diff where
  deltas_len : Nat
  stats : Except GitError DiffStats

/-- Result of repo.revparse on one revision expression: mode SINGLE, a plain
range A..B, or a range A...B whose mode also contains MERGE_BASE. -/
inductive RevSpec where
  | single (c : Nat)
  | range (fromId toId : Nat)
  | mergeRange (fromId toId : Nat)

/-- The repository-access collaborator: the capabilities of git2::Repository
and the Pathspec matcher that run uses.  Tree references are Nat.
`match_tree t` models `ps.match_tree(&tree, NO_MATCH_ERROR).is_ok()`: true iff
the tree has at least one entry matching the pathspec.  `diff_tree_to_tree`
already carries the configured pathspec of the diff options. -/
structure Repo where
  find_commit : Nat → Except GitError Commit
  tree : Nat → Except GitError Nat
  match_tree : Nat → Bool
  diff_tree_to_tree : Option Nat → Nat → Except GitError Diff
  revparse_single : String → Except GitError Nat
  revparse : String → Except GitError RevSpec
  merge_base : Nat → Nat → Except GitError Nat
  find_object : Nat → Except GitError Nat
  head : Except GitError Nat

/-- The deserialised argument struct (src/main.rs lines 43..60).  The usage
text also advertises --author, --committer and --grep, but Args declares no
field for them, so they are discarded by parsing; see CliOptions below. -/
structure Args where
  arg_commit : List String
  arg_spec : List String
  flag_topo_order : Bool
  flag_date_order : Bool
  flag_reverse : Bool
  flag_git_dir : Option String
  flag_skip : Option Nat
  flag_max_count : Option Nat
  flag_merges : Bool
  flag_no_merges : Bool
  flag_no_min_parents : Bool
  flag_no_max_parents : Bool
  flag_max_parents : Option Nat
  flag_min_parents : Option Nat
  flag_patch : Bool

/-- Args::min_parents (src/main.rs lines 196..202): 0 when the ignore switch
is set, else the explicit value, else 2 in merges mode and 0 otherwise. -/
def Args.min_parents (a : Args) : Nat :=
  if a.flag_no_min_parents then 0
  else
    match a.flag_min_parents with
    | some n => n
    | none => if a.flag_merges then 2 else 0

/-- Args::max_parents (src/main.rs lines 204..210): none (unbounded) when the
ignore switch is set, else the explicit value, else some 1 in no-merges mode
and none otherwise. -/
def Args.max_parents (a : Args) : Option Nat :=
  if a.flag_no_max_parents then none
  else
    match a.flag_max_parents with
    | some n => some n
    | none => if a.flag_no_merges then some 1 else none

/-- The second early return of the filter closure (src/main.rs lines 132..135):
the commit is rejected when a maximum n is configured and parents >= n. -/
def max_parents_exceeded (args : Args) (parents : Nat) : Bool :=
  match args.max_parents with
  | some n => decide (parents ≥ n)
  | none => false

/-- The parent-count predicate of the filter closure (lines 128..136): the
commit passes both early returns, i.e. min_parents <= parents and the maximum
bound, when configured, is not reached. -/
def parent_count_keep (args : Args) (parents : Nat) : Bool :=
  decide (args.min_parents ≤ parents) && !(max_parents_exceeded args parents)

/-- match_with_parent (src/main.rs lines 183..193): tree of the parent, tree
of the commit, diff between them under the pathspec diff options; true iff the
diff has at least one delta.  The parent enters only through its tree, so it
is passed by id here. -/
def match_with_parent (repo : Repo) (commit : Commit) (parent : Nat) : Except GitError Bool :=
  match repo.tree parent with
  | .error e => .error e
  | .ok a =>
    match repo.tree commit.id with
    | .error e => .error e
    | .ok b =>
      match repo.diff_tree_to_tree (some a) b with
      | .error e => .error e
      | .ok d => .ok (decide (d.deltas_len > 0))

/-- The per-parent check of the filter closure (lines 147..150):
match_with_parent(...).unwrap_or(false) — an error is treated as false. -/
def parent_diff_matches (repo : Repo) (commit : Commit) (parent : Nat) : Bool :=
  match match_with_parent repo commit parent with
  | .ok m => m
  | .error _ => false

/-- One step of the revwalk filter_map closure (src/main.rs lines 126..158).
none: the commit is filtered out; some: an item passed downstream, either the
commit or a propagated error (the filter_try! macro). -/
def filter_step (args : Args) (repo : Repo) : Except GitError Nat → Option (Except GitError Commit)
  | .error e => some (.error e)
  | .ok id =>
    match repo.find_commit id with
    | .error e => some (.error e)
    | .ok commit =>
      if commit.parents.length < args.min_parents then none
      else if max_parents_exceeded args commit.parents.length then none
      else if args.arg_spec.isEmpty then some (.ok commit)
      else
        match commit.parents with
        | [] =>
          match repo.tree commit.id with
          | .error e => some (.error e)
          | .ok t => if repo.match_tree t then some (.ok commit) else none
        | _ :: _ =>
          if commit.parents.all (fun pid => parent_diff_matches repo commit pid)
          then some (.ok commit) else none

/-- ShortStat (src/main.rs lines 23..41). -/
structure ShortStat where
  files_changed : Nat
  insertions : Nat
  deletions : Nat
deriving DecidableEq, Repr

/-- The From<DiffStats> conversion (lines 33..41). -/
def ShortStat.ofDiffStats (s : DiffStats) : ShortStat :=
  { files_changed := s.files_changed, insertions := s.insertions, deletions := s.deletions }

/-- serde_json::to_string of a ShortStat, with the serde rename attributes:
keys f, i and d. -/
def ShortStat.to_json (s : ShortStat) : String :=
  "\x7b\"f\":" ++ toString s.files_changed ++ ",\"i\":" ++ toString s.insertions
    ++ ",\"d\":" ++ toString s.deletions ++ "\x7d"

/-- The tree diffed against for stats (lines 167..172): the single parent's
tree when the commit has exactly one parent (commit.parent(0) is a fallible
lookup), none otherwise. -/
def parent_tree (repo : Repo) (commit : Commit) : Except GitError (Option Nat) :=
  match commit.parents with
  | [pid] =>
    match repo.find_commit pid with
    | .error e => .error e
    | .ok parent =>
      match repo.tree parent.id with
      | .error e => .error e
      | .ok t => .ok (some t)
  | _ => .ok none

/-- The stats computation for one surviving commit (lines 167..176): diff the
parent tree (or the empty tree) against the commit's tree, extract the stats,
and serialise them as the printed line. -/
def emit_stat (repo : Repo) (commit : Commit) : Except GitError String :=
  match parent_tree repo commit with
  | .error e => .error e
  | .ok a =>
    match repo.tree commit.id with
    | .error e => .error e
    | .ok b =>
      match repo.diff_tree_to_tree a b with
      | .error e => .error e
      | .ok d =>
        match d.stats with
        | .error e => .error e
        | .ok st => .ok (ShortStat.ofDiffStats st).to_json

/-- The reporting loop (src/main.rs lines 162..178): for each item, an error
aborts the run (`let commit = commit?`); a commit is skipped when patch mode
is off or it has more than one parent, and otherwise its stats line is
printed.  Returns the printed lines and the propagated error, if any. -/
def emit_loop (args : Args) (repo : Repo) : List (Except GitError Commit) → List String × Option GitError
  | [] => ([], none)
  | .error e :: _ => ([], some e)
  | .ok commit :: rest =>
    if args.flag_patch = false ∨ 1 < commit.parents.length then
      emit_loop args repo rest
    else
      match emit_stat repo commit with
      | .error e => ([], some e)
      | .ok line =>
        let r := emit_loop args repo rest
        (line :: r.1, r.2)

/-- An action performed on the revwalk while resolving revision expressions:
push adds a start point, hide adds an excluded point. -/
inductive WalkAction where
  | push (id : Nat)
  | hide (id : Nat)
deriving DecidableEq, Repr

/-- commit.starts_with of the caret character (line 83), on the char data of
the string. -/
def starts_with_caret (s : String) : Bool :=
  match s.data with
  | [] => false
  | c :: _ => c = '^'

/-- The slice commit[1..] of line 84: everything after the one-byte caret. -/
def str_rest (s : String) : String := String.mk (s.data.drop 1)

/-- Resolution of one revision expression (src/main.rs lines 82..99): a ^ref
hides its resolved commit; otherwise revparse decides between a single commit
(pushed) and a range (push to, then for the merge-base mode push the
merge-base object, then hide from). -/
def resolve_rev (repo : Repo) (commit : String) : Except GitError (List WalkAction) :=
  if starts_with_caret commit then
    match repo.revparse_single (str_rest commit) with
    | .error e => .error e
    | .ok objId => .ok [WalkAction.hide objId]
  else
    match repo.revparse commit with
    | .error e => .error e
    | .ok (.single c) => .ok [WalkAction.push c]
    | .ok (.range fromId toId) => .ok [WalkAction.push toId, WalkAction.hide fromId]
    | .ok (.mergeRange fromId toId) =>
      match repo.merge_base fromId toId with
      | .error e => .error e
      | .ok base =>
        match repo.find_object base with
        | .error e => .error e
        | .ok o => .ok [WalkAction.push toId, WalkAction.push o, WalkAction.hide fromId]

/-- The actions of all revision expressions, in order; any failure aborts. -/
def resolve_list (repo : Repo) : List String → Except GitError (List WalkAction)
  | [] => .ok []
  | s :: rest =>
    match resolve_rev repo s with
    | .error e => .error e
    | .ok acts =>
      match resolve_list repo rest with
      | .error e => .error e
      | .ok more => .ok (acts ++ more)

/-- The revwalk preparation (src/main.rs lines 82..105): the actions of the
expression loop, and when no expression was supplied at all, push of the head
commit. -/
def resolve_actions (repo : Repo) (revs : List String) : Except GitError (List WalkAction) :=
  match resolve_list repo revs with
  | .error e => .error e
  | .ok acts =>
    if revs.isEmpty then
      match repo.head with
      | .error e => .error e
      | .ok h => .ok (acts ++ [WalkAction.push h])
    else .ok acts

/-- The start set determined by a list of walk actions. -/
def start_set (acts : List WalkAction) : List Nat :=
  acts.filterMap fun a =>
    match a with
    | .push i => some i
    | .hide _ => none

/-- The hide set determined by a list of walk actions. -/
def hide_set (acts : List WalkAction) : List Nat :=
  acts.filterMap fun a =>
    match a with
    | .push _ => none
    | .hide i => some i

/-- usize::MAX: the !0 default of take in line 160. -/
def usize_max : Nat := 2 ^ 64 - 1

/-- The items surviving the filter closure, in walk order (lines 126..158). -/
def surviving (args : Args) (repo : Repo) (walk : List (Except GitError Nat)) :
    List (Except GitError Commit) :=
  walk.filterMap (filter_step args repo)

/-- The windowing of lines 159..160: skip then take on the surviving items. -/
def windowed (args : Args) (repo : Repo) (walk : List (Except GitError Nat)) :
    List (Except GitError Commit) :=
  ((surviving args repo walk).drop (args.flag_skip.getD 0)).take
    (args.flag_max_count.getD usize_max)

/-- run (src/main.rs lines 62..181): resolve the revision expressions, then
filter, window and report over the walker's output sequence.  The walker
itself is the library collaborator; its output sequence is the walk
parameter.  Returns the stdout lines printed and the error propagated out of
run, if any. -/
def run (args : Args) (repo : Repo) (walk : List (Except GitError Nat)) :
    List String × Option GitError :=
  match resolve_actions repo args.arg_commit with
  | .error e => ([], some e)
  | .ok _ => emit_loop args repo (windowed args repo walk)

/-- main (src/main.rs lines 237..245): run, and on error print the single
line `error: <message>`.  main returns unit on both branches, so the process
exit status is 0 in either case.  Result: all stdout lines in order, and the
exit status. -/
def main_behaviour (args : Args) (repo : Repo) (walk : List (Except GitError Nat)) :
    List String × Nat :=
  match run args repo walk with
  | (lines, none) => (lines, 0)
  | (lines, some e) => (lines ++ [("error: ") ++ e.msg], 0)

/-- The option surface advertised in the usage text (lines 214..235): the
fields Args retains, plus the three advertised options (--author, --committer,
--grep) for which Args declares no field. -/
structure CliOptions where
  base : Args
  flag_author : Option String
  flag_committer : Option String
  flag_grep : Option String

/-- Deserialisation keeps exactly the declared Args fields: the three extra
options are discarded. -/
def CliOptions.to_args (c : CliOptions) : Args := c.base

/-- An Args value with every flag at its docopt default. -/
def default_args : Args :=
  { arg_commit := []
    arg_spec := []
    flag_topo_order := false
    flag_date_order := false
    flag_reverse := false
    flag_git_dir := none
    flag_skip := none
    flag_max_count := none
    flag_merges := false
    flag_no_merges := false
    flag_no_min_parents := false
    flag_no_max_parents := false
    flag_max_parents := none
    flag_min_parents := none
    flag_patch := false }

/-- A linear three-commit repository R1 <- R2 <- R3: commit i has tree 10+i,
head is R3, and the three relevant diffs have distinguishable stats
(R1 vs empty: 1 insertion; R2 vs R1: 2; R3 vs R2: 3). -/
def linear_repo : Repo :=
  { find_commit := fun id =>
      if id = 1 then .ok { id := 1, parents := [] }
      else if id = 2 then .ok { id := 2, parents := [1] }
      else if id = 3 then .ok { id := 3, parents := [2] }
      else .error { msg := "object not found" }
    tree := fun id =>
      if id = 1 ∨ id = 2 ∨ id = 3 then .ok (10 + id)
      else .error { msg := "tree not found" }
    match_tree := fun _ => true
    diff_tree_to_tree := fun a b =>
      if a = none ∧ b = 11 then .ok { deltas_len := 1, stats := .ok { files_changed := 1, insertions := 1, deletions := 0 } }
      else if a = some 11 ∧ b = 12 then .ok { deltas_len := 1, stats := .ok { files_changed := 1, insertions := 2, deletions := 0 } }
      else if a = some 12 ∧ b = 13 then .ok { deltas_len := 1, stats := .ok { files_changed := 1, insertions := 3, deletions := 0 } }
      else .error { msg := "diff not available" }
    revparse_single := fun _ => .error { msg := "unused" }
    revparse := fun _ => .error { msg := "unused" }
    merge_base := fun _ _ => .error { msg := "unused" }
    find_object := fun i => .ok i
    head := .ok 3 }

/-- The arguments of the C1 end-to-end scenario: --no-merges --max-count 1 -p. -/
def c1_args : Args :=
  { default_args with flag_no_merges := true, flag_max_count := some 1, flag_patch := true }

/-- Default arguments plus a non-empty pathspec. -/
def spec_args : Args := { default_args with arg_spec := [("src")] }

/-- Default arguments plus the merges-only flag. -/
def merges_args : Args := { default_args with flag_merges := true }

/-- Default arguments plus patch mode. -/
def patch_args : Args := { default_args with flag_patch := true }

/-- Default arguments plus --skip 2 --max-count 1. -/
def window_args : Args := { default_args with flag_skip := some 2, flag_max_count := some 1 }

/-- A two-commit repository in which every diff computation fails. -/
def bad_diff_repo : Repo :=
  { find_commit := fun id =>
      if id = 1 then .ok { id := 1, parents := [] }
      else if id = 2 then .ok { id := 2, parents := [1] }
      else .error { msg := "object not found" }
    tree := fun id =>
      if id = 1 ∨ id = 2 then .ok (20 + id) else .error { msg := "tree not found" }
    match_tree := fun _ => true
    diff_tree_to_tree := fun _ _ => .error { msg := "diff failed" }
    revparse_single := fun _ => .error { msg := "unused" }
    revparse := fun _ => .error { msg := "unused" }
    merge_base := fun _ _ => .error { msg := "unused" }
    find_object := fun i => .ok i
    head := .ok 2 }

/-- A repository in which every id resolves to a root commit. -/
def quad_repo : Repo :=
  { find_commit := fun id => .ok { id := id, parents := [] }
    tree := fun _ => .error { msg := "unused" }
    match_tree := fun _ => true
    diff_tree_to_tree := fun _ _ => .error { msg := "unused" }
    revparse_single := fun _ => .error { msg := "unused" }
    revparse := fun _ => .error { msg := "unused" }
    merge_base := fun _ _ => .error { msg := "unused" }
    find_object := fun i => .ok i
    head := .ok 1 }

/-- A repository exercising the revision-expression resolution: revparse
distinguishes by the expression text, the merge-base of any pair is 5. -/
def rev_repo : Repo :=
  { find_commit := fun _ => .error { msg := "unused" }
    tree := fun _ => .error { msg := "unused" }
    match_tree := fun _ => true
    diff_tree_to_tree := fun _ _ => .error { msg := "unused" }
    revparse_single := fun _ => .ok 8
    revparse := fun s =>
      match s.data with
      | ['r'] => .ok (.range 4 7)
      | ['m'] => .ok (.mergeRange 4 7)
      | _ => .ok (.single 9)
    merge_base := fun _ _ => .ok 5
    find_object := fun i => .ok i
    head := .ok 3 }

/-- The linear repository with a broken head reference. -/
def err_repo : Repo := { linear_repo with head := .error { msg := "boom" } }


/-! ## Helper lemmas -/

/-- Inversion for a kept commit: the filter only passes on the commit that
find_commit returned, and only when both parent bounds are satisfied. -/
theorem filter_step_kept_inv (args : Args) (repo : Repo) (idx : Nat) (c : Commit)
    (h : filter_step args repo (.ok idx) = some (.ok c)) :
    repo.find_commit idx = .ok c ∧
    ¬ c.parents.length < args.min_parents ∧
    max_parents_exceeded args c.parents.length = false := by
  rcases hf : repo.find_commit idx with e | commit
  · simp [filter_step, hf] at h
  · simp only [filter_step, hf] at h
    by_cases h1 : commit.parents.length < args.min_parents
    · simp [h1] at h
    · cases h2 : max_parents_exceeded args commit.parents.length with
      | true => simp [h1, h2] at h
      | false =>
        by_cases hs : args.arg_spec.isEmpty
        · simp [h1, h2, hs] at h
          subst h
          exact ⟨rfl, h1, h2⟩
        · rcases hp : commit.parents with _ | ⟨p, ps⟩
          · rcases ht : repo.tree commit.id with e2 | t
            · simp [h1, h2, hs, hp, ht] at h
            · cases hm : repo.match_tree t with
              | false => simp [h1, h2, hs, hp, ht, hm] at h
              | true =>
                simp [h1, h2, hs, hp, ht, hm] at h
                obtain ⟨hmin, hmpe, rfl⟩ := h
                refine ⟨rfl, ?_, ?_⟩
                · simp [hp, hmin]
                · simpa [hp] using hmpe
          · cases hall : (p :: ps).all (fun pid => parent_diff_matches repo commit pid) with
            | false =>
              rw [hp] at h
              simp [h1, h2, hs, hall] at h
            | true =>
              rw [hp] at h
              simp [h1, h2, hs, hall] at h
              obtain ⟨hmin, hmpe, rfl⟩ := h
              refine ⟨rfl, ?_, ?_⟩
              · rw [hp]
                simp only [List.length_cons]
                omega
              · simpa [hp] using hmpe

/-! ## Claim theorems -/

/-- Claim C1 (code bug), evaluated on the code at the failing input.  The
claim says that under the no-merges default the parent-count filter keeps
every commit with 0 or 1 parents, and that on the linear history R1 -> R2 ->
R3 the invocation --no-merges --max-count 1 --patch emits exactly one stats
line, for R3 diffed against R2 (which would be the f=1,i=3,d=0 line of
linear_repo).  The code resolves --no-merges to max_parents = 1 and drops a
commit as soon as parents >= max_parents (src/main.rs line 133 uses >= where
the upstream example uses >), so a one-parent commit is rejected and the one
emitted line is R1 diffed against the empty tree (f=1,i=1,d=0). -/
theorem c1_no_merges_behaviour :
    parent_count_keep c1_args 0 = true ∧
    parent_count_keep c1_args 1 = false ∧
    run c1_args linear_repo [.ok 3, .ok 2, .ok 1] =
      ([("\x7b\"f\":1,\"i\":1,\"d\":0\x7d")], none) :=
  ⟨rfl, rfl, rfl⟩


/-- Reduction of the filter for a found commit that passes both parent-count
bounds, with a non-empty pathspec: only the path-relevance check remains. -/
theorem filter_step_ok_spec (args : Args) (repo : Repo) (c : Commit)
    (hfind : repo.find_commit c.id = .ok c)
    (hmin : ¬ c.parents.length < args.min_parents)
    (hmax : max_parents_exceeded args c.parents.length = false)
    (hne : args.arg_spec.isEmpty = false) :
    filter_step args repo (.ok c.id) =
      (match c.parents with
       | [] =>
         match repo.tree c.id with
         | .error e => some (.error e)
         | .ok t => if repo.match_tree t then some (.ok c) else none
       | _ :: _ =>
         if c.parents.all (fun pid => parent_diff_matches repo c pid)
         then some (.ok c) else none) := by
  simp only [filter_step, hfind]
  rw [if_neg hmin]
  simp only [hmax, hne, Bool.false_eq_true, if_false]

/-- Claim C2: with a non-empty pathspec configured, a root commit is kept by
the filter iff its tree matches the pathspec; a commit with parents is kept
iff the pathspec-restricted diff against every one of its parents shows at
least one change (parent_diff_matches; per C4 a failed per-parent check
counts as no change); and with an empty pathspec the path-relevance predicate
is not applied at all. -/
theorem c2_path_relevance (repo : Repo) (args : Args) (c : Commit) (t : Nat)
    (hfind : repo.find_commit c.id = .ok c)
    (hmin : ¬ c.parents.length < args.min_parents)
    (hmax : max_parents_exceeded args c.parents.length = false) :
    (args.arg_spec = [] → filter_step args repo (.ok c.id) = some (.ok c)) ∧
    (args.arg_spec ≠ [] → c.parents = [] → repo.tree c.id = .ok t →
      (filter_step args repo (.ok c.id) = some (.ok c) ↔ repo.match_tree t = true)) ∧
    (args.arg_spec ≠ [] → c.parents ≠ [] →
      (filter_step args repo (.ok c.id) = some (.ok c) ↔
        ∀ pid ∈ c.parents, parent_diff_matches repo c pid = true)) := by
  refine ⟨?_, ?_, ?_⟩
  · intro hs
    simp [filter_step, hfind, hmin, hmax, hs]
  · intro hs hroot htree
    have hne : args.arg_spec.isEmpty = false := by
      simp [List.isEmpty_iff, hs]
    rw [filter_step_ok_spec args repo c hfind hmin hmax hne]
    simp only [hroot, htree]
    cases hm : repo.match_tree t with
    | false => simp [hm]
    | true => simp [hm]
  · intro hs hne2
    have hne : args.arg_spec.isEmpty = false := by
      simp [List.isEmpty_iff, hs]
    rw [filter_step_ok_spec args repo c hfind hmin hmax hne]
    rcases hp : c.parents with _ | ⟨p, ps⟩
    · exact absurd hp hne2
    · simp only [hp]
      cases hall : (p :: ps).all (fun pid => parent_diff_matches repo c pid) with
      | false =>
        simp only [hall, Bool.false_eq_true, if_false]
        constructor
        · intro habs
          exact absurd habs (by simp)
        · intro hforall
          exfalso
          have htrue : (p :: ps).all (fun pid => parent_diff_matches repo c pid) = true :=
            List.all_eq_true.mpr hforall
          rw [htrue] at hall
          exact Bool.noConfusion hall
      | true =>
        simp only [hall, if_true]
        constructor
        · intro _
          simpa using List.all_eq_true.mp hall
        · intro _
          trivial

/-- Witness for C2, at the one-parent tip of the linear repository with a
non-empty pathspec. -/
theorem c2_witness :
    filter_step spec_args linear_repo (.ok 3) =
        some (.ok { id := 3, parents := [2] }) ↔
      ∀ pid ∈ ({ id := 3, parents := [2] } : Commit).parents,
        parent_diff_matches linear_repo { id := 3, parents := [2] } pid = true :=
  (c2_path_relevance linear_repo spec_args { id := 3, parents := [2] } 13
      rfl (by decide) rfl).2.2 (by decide) (by decide)

/-- Claim C3: the resolved parent bounds as a pure function of the flags —
defaults min 0 / max unbounded, merges-only defaults min to 2, no-merges
defaults max to 1, an explicit value wins over the mode defaults, and the
ignore switches force the respective bound off for every flag combination. -/
theorem c3_parent_bound_derivation (a : Args) :
    (a.flag_no_min_parents = true → a.min_parents = 0) ∧
    (a.flag_no_max_parents = true → a.max_parents = none) ∧
    (a.flag_no_min_parents = false → ∀ n, a.flag_min_parents = some n → a.min_parents = n) ∧
    (a.flag_no_max_parents = false → ∀ n, a.flag_max_parents = some n → a.max_parents = some n) ∧
    (a.flag_no_min_parents = false → a.flag_min_parents = none → a.flag_merges = true →
      a.min_parents = 2) ∧
    (a.flag_no_min_parents = false → a.flag_min_parents = none → a.flag_merges = false →
      a.min_parents = 0) ∧
    (a.flag_no_max_parents = false → a.flag_max_parents = none → a.flag_no_merges = true →
      a.max_parents = some 1) ∧
    (a.flag_no_max_parents = false → a.flag_max_parents = none → a.flag_no_merges = false →
      a.max_parents = none) := by
  refine ⟨?_, ?_, ?_, ?_, ?_, ?_, ?_, ?_⟩ <;>
    intros <;>
    simp_all [Args.min_parents, Args.max_parents]

/-- Witness for C3 at three concrete flag combinations: all defaults,
merges-only, and no-merges. -/
theorem c3_witness :
    default_args.min_parents = 0 ∧
    merges_args.min_parents = 2 ∧
    c1_args.max_parents = some 1 :=
  ⟨(c3_parent_bound_derivation default_args).2.2.2.2.2.1 rfl rfl rfl,
   (c3_parent_bound_derivation merges_args).2.2.2.2.1 rfl rfl rfl,
   (c3_parent_bound_derivation c1_args).2.2.2.2.2.2.1 rfl rfl rfl⟩

/-- Claim C4: every collaborator failure propagates and aborts the run — a
walker error item, a find_commit failure, a tree failure in the root-commit
path check, a tree/parent/diff failure during stats emission, and a
reference-resolution failure — with the single exception of the per-parent
path-relevance diff check, where an internal error is treated as "this parent
shows no match" and the commit is dropped instead of aborting. -/
theorem c4_error_policy (repo : Repo) (args : Args) (c : Commit) (e : GitError)
    (pid idx : Nat) (rest : List (Except GitError Commit))
    (walk : List (Except GitError Nat)) :
    (filter_step args repo (.error e) = some (.error e)) ∧
    (repo.find_commit idx = .error e → filter_step args repo (.ok idx) = some (.error e)) ∧
    (repo.find_commit c.id = .ok c → ¬ c.parents.length < args.min_parents →
      max_parents_exceeded args c.parents.length = false → args.arg_spec ≠ [] →
      c.parents = [] → repo.tree c.id = .error e →
      filter_step args repo (.ok c.id) = some (.error e)) ∧
    (repo.find_commit c.id = .ok c → ¬ c.parents.length < args.min_parents →
      max_parents_exceeded args c.parents.length = false → args.arg_spec ≠ [] →
      pid ∈ c.parents → match_with_parent repo c pid = .error e →
      filter_step args repo (.ok c.id) = none) ∧
    (emit_loop args repo (.error e :: rest) = ([], some e)) ∧
    (args.flag_patch = true → c.parents = [] → repo.tree c.id = .error e →
      emit_loop args repo (.ok c :: rest) = ([], some e)) ∧
    (resolve_actions repo args.arg_commit = .error e → run args repo walk = ([], some e)) := by
  refine ⟨?_, ?_, ?_, ?_, ?_, ?_, ?_⟩
  · rfl
  · intro hf
    simp [filter_step, hf]
  · intro hfind hmin hmax hs hroot htree
    have hne : args.arg_spec.isEmpty = false := by
      simp [List.isEmpty_iff, hs]
    rw [filter_step_ok_spec args repo c hfind hmin hmax hne]
    simp [hroot, htree]
  · intro hfind hmin hmax hs hpid herr
    have hne : args.arg_spec.isEmpty = false := by
      simp [List.isEmpty_iff, hs]
    rw [filter_step_ok_spec args repo c hfind hmin hmax hne]
    rcases hp : c.parents with _ | ⟨p, ps⟩
    · rw [hp] at hpid
      exact absurd hpid (by simp)
    · have hfalse : parent_diff_matches repo c pid = false := by
        simp [parent_diff_matches, herr]
      have hall : ((p :: ps).all fun q => parent_diff_matches repo c q) = false := by
        cases hv : (p :: ps).all fun q => parent_diff_matches repo c q with
        | false => rfl
        | true =>
          exfalso
          have := List.all_eq_true.mp hv pid (hp ▸ hpid)
          rw [hfalse] at this
          exact Bool.noConfusion this
      simp [hall]
  · rfl
  · intro hpatch hroot htree
    have hcond : ¬ (args.flag_patch = false ∨ 1 < c.parents.length) := by
      simp [hpatch, hroot]
    simp only [emit_loop, if_neg hcond]
    have hstat : emit_stat repo c = .error e := by
      simp [emit_stat, parent_tree, hroot, htree]
    simp [hstat]
  · intro hres
    simp [run, hres]

/-- Witness for C4: a failing per-parent diff drops the commit instead of
aborting, in the repository whose diff computation always fails. -/
theorem c4_witness :
    filter_step spec_args bad_diff_repo (.ok 2) = none :=
  (c4_error_policy bad_diff_repo spec_args { id := 2, parents := [1] }
      { msg := "diff failed" } 1 0 [] []).2.2.2.1
    rfl (by decide) rfl (by decide) (by decide) rfl

/-- Claim C5: with patch mode on, a surviving commit with one parent gets
exactly one stats line diffing its tree against the parent's tree, a root
commit gets one diffing against the empty tree, the line carries the f/i/d
keyed record of the diff stats, a commit with more than one parent never
produces a line, and with patch mode off no line is produced at all. -/
theorem c5_patch_emission (args : Args) (repo : Repo) (c : Commit)
    (rest : List (Except GitError Commit)) (pid ta tb : Nat) (parent : Commit)
    (d : Diff) (st : DiffStats) :
    (args.flag_patch = false → emit_loop args repo (.ok c :: rest) = emit_loop args repo rest) ∧
    (1 < c.parents.length → emit_loop args repo (.ok c :: rest) = emit_loop args repo rest) ∧
    (args.flag_patch = true → c.parents = [pid] →
      repo.find_commit pid = .ok parent → repo.tree parent.id = .ok ta →
      repo.tree c.id = .ok tb → repo.diff_tree_to_tree (some ta) tb = .ok d →
      d.stats = .ok st →
      emit_loop args repo (.ok c :: rest) =
        ((ShortStat.ofDiffStats st).to_json :: (emit_loop args repo rest).1,
          (emit_loop args repo rest).2)) ∧
    (args.flag_patch = true → c.parents = [] →
      repo.tree c.id = .ok tb → repo.diff_tree_to_tree none tb = .ok d →
      d.stats = .ok st →
      emit_loop args repo (.ok c :: rest) =
        ((ShortStat.ofDiffStats st).to_json :: (emit_loop args repo rest).1,
          (emit_loop args repo rest).2)) := by
  refine ⟨?_, ?_, ?_, ?_⟩
  · intro hpatch
    simp [emit_loop, hpatch]
  · intro hbig
    simp [emit_loop, hbig]
  · intro hpatch hpar hfind hta htb hd hst
    have hcond : ¬ (args.flag_patch = false ∨ 1 < c.parents.length) := by
      simp [hpatch, hpar]
    simp only [emit_loop, if_neg hcond]
    have hstat : emit_stat repo c = .ok (ShortStat.ofDiffStats st).to_json := by
      simp [emit_stat, parent_tree, hpar, hfind, hta, htb, hd, hst]
    simp [hstat]
  · intro hpatch hpar htb hd hst
    have hcond : ¬ (args.flag_patch = false ∨ 1 < c.parents.length) := by
      simp [hpatch, hpar]
    simp only [emit_loop, if_neg hcond]
    have hstat : emit_stat repo c = .ok (ShortStat.ofDiffStats st).to_json := by
      simp [emit_stat, parent_tree, hpar, htb, hd, hst]
    simp [hstat]

/-- Witness for C5: the tip of the linear repository in patch mode emits the
single f=1,i=3,d=0 line for its diff against its parent. -/
theorem c5_witness :
    emit_loop patch_args linear_repo [.ok { id := 3, parents := [2] }] =
      ([("\x7b\"f\":1,\"i\":3,\"d\":0\x7d")], none) := by
  have h := (c5_patch_emission patch_args linear_repo { id := 3, parents := [2] } [] 2 12 13
      { id := 2, parents := [1] }
      { deltas_len := 1, stats := .ok { files_changed := 1, insertions := 3, deletions := 0 } }
      { files_changed := 1, insertions := 3, deletions := 0 }).2.2.1
    rfl rfl rfl rfl rfl rfl rfl
  exact h.trans rfl

/-- Claim C6: revision-expression resolution — a bare reference pushes its
single resolved commit to the start set; a caret-prefixed reference hides its
resolved commit; A..B pushes B and hides A; A...B pushes B and the merge-base
of A and B and hides A; and with no expression at all the head commit is
pushed. -/
theorem c6_revision_resolution (repo : Repo) (s : String) (c a b m h : Nat) :
    (starts_with_caret s = false → repo.revparse s = .ok (.single c) →
      resolve_rev repo s = .ok [WalkAction.push c] ∧
      start_set [WalkAction.push c] = [c] ∧ hide_set [WalkAction.push c] = []) ∧
    (starts_with_caret s = true → repo.revparse_single (str_rest s) = .ok c →
      resolve_rev repo s = .ok [WalkAction.hide c] ∧
      start_set [WalkAction.hide c] = [] ∧ hide_set [WalkAction.hide c] = [c]) ∧
    (starts_with_caret s = false → repo.revparse s = .ok (.range a b) →
      resolve_rev repo s = .ok [WalkAction.push b, WalkAction.hide a] ∧
      start_set [WalkAction.push b, WalkAction.hide a] = [b] ∧
      hide_set [WalkAction.push b, WalkAction.hide a] = [a]) ∧
    (starts_with_caret s = false → repo.revparse s = .ok (.mergeRange a b) →
      repo.merge_base a b = .ok m → repo.find_object m = .ok m →
      resolve_rev repo s = .ok [WalkAction.push b, WalkAction.push m, WalkAction.hide a] ∧
      start_set [WalkAction.push b, WalkAction.push m, WalkAction.hide a] = [b, m] ∧
      hide_set [WalkAction.push b, WalkAction.push m, WalkAction.hide a] = [a]) ∧
    (repo.head = .ok h → resolve_actions repo [] = .ok [WalkAction.push h]) := by
  refine ⟨?_, ?_, ?_, ?_, ?_⟩
  · intro hcar hp
    refine ⟨?_, rfl, rfl⟩
    simp [resolve_rev, hcar, hp]
  · intro hcar hp
    refine ⟨?_, rfl, rfl⟩
    simp [resolve_rev, hcar, hp]
  · intro hcar hp
    refine ⟨?_, rfl, rfl⟩
    simp [resolve_rev, hcar, hp]
  · intro hcar hp hm ho
    refine ⟨?_, rfl, rfl⟩
    simp [resolve_rev, hcar, hp, hm, ho]
  · intro hh
    simp [resolve_actions, resolve_list, hh]

/-- Witness for C6: each expression form evaluated in the concrete
revision-resolution repository. -/
theorem c6_witness :
    resolve_rev rev_repo ("b") = .ok [WalkAction.push 9] ∧
    resolve_rev rev_repo ("^x") = .ok [WalkAction.hide 8] ∧
    resolve_rev rev_repo ("r") = .ok [WalkAction.push 7, WalkAction.hide 4] ∧
    resolve_rev rev_repo ("m") =
      .ok [WalkAction.push 7, WalkAction.push 5, WalkAction.hide 4] ∧
    resolve_actions rev_repo [] = .ok [WalkAction.push 3] :=
  ⟨((c6_revision_resolution rev_repo ("b") 9 0 0 0 0).1 rfl rfl).1,
   ((c6_revision_resolution rev_repo ("^x") 8 0 0 0 0).2.1 rfl rfl).1,
   ((c6_revision_resolution rev_repo ("r") 0 4 7 0 0).2.2.1 rfl rfl).1,
   ((c6_revision_resolution rev_repo ("m") 0 4 7 5 0).2.2.2.1 rfl rfl rfl rfl).1,
   (c6_revision_resolution rev_repo ("x") 0 0 0 0 3).2.2.2.2 rfl⟩

/-- Claim C7: every commit kept by the filter satisfies the parent-count
bounds — at least min_parents parents, and strictly fewer than max_parents
when a maximum is configured. -/
theorem c7_parent_count_bounds (args : Args) (repo : Repo) (idx : Nat) (c : Commit)
    (h : filter_step args repo (.ok idx) = some (.ok c)) :
    args.min_parents ≤ c.parents.length ∧
    ∀ n, args.max_parents = some n → c.parents.length < n := by
  obtain ⟨-, h1, h2⟩ := filter_step_kept_inv args repo idx c h
  refine ⟨Nat.le_of_not_lt h1, ?_⟩
  intro n hn
  unfold max_parents_exceeded at h2
  rw [hn] at h2
  simp only [decide_eq_false_iff_not] at h2
  exact Nat.lt_of_not_le h2

/-- Witness for C7 at the root commit of the linear repository under the
default arguments. -/
theorem c7_witness :
    default_args.min_parents ≤ ({ id := 1, parents := [] } : Commit).parents.length ∧
    ∀ n, default_args.max_parents = some n →
      ({ id := 1, parents := [] } : Commit).parents.length < n :=
  c7_parent_count_bounds default_args linear_repo 1 { id := 1, parents := [] } rfl

/-- Claim C8: windowing runs after the two filter predicates, on the sequence
of surviving items — with the defaults (skip 0, take unbounded) it passes the
surviving sequence through unchanged, and with skip 2 and max-count 1 a
surviving sequence [A, B, C, D] is reduced to exactly [C]. -/
theorem c8_windowing (args : Args) (repo : Repo) (walk : List (Except GitError Nat))
    (ca cb cc cd : Commit) :
    ((surviving args repo walk).length ≤ usize_max → args.flag_skip = none →
      args.flag_max_count = none → windowed args repo walk = surviving args repo walk) ∧
    (args.flag_skip = some 2 → args.flag_max_count = some 1 →
      surviving args repo walk = [.ok ca, .ok cb, .ok cc, .ok cd] →
      windowed args repo walk = [.ok cc]) := by
  constructor
  · intro hlen h1 h2
    simp only [windowed, h1, h2, Option.getD_none, List.drop_zero]
    exact List.take_of_length_le hlen
  · intro h1 h2 hs
    simp only [windowed, h1, h2, hs, Option.getD_some]
    rfl

/-- Witness for C8 in the all-roots repository with --skip 2 --max-count 1. -/
theorem c8_witness :
    windowed window_args quad_repo [.ok 1, .ok 2, .ok 3, .ok 4] =
      [.ok { id := 3, parents := [] }] :=
  (c8_windowing window_args quad_repo [.ok 1, .ok 2, .ok 3, .ok 4]
      { id := 1, parents := [] } { id := 2, parents := [] }
      { id := 3, parents := [] } { id := 4, parents := [] }).2 rfl rfl rfl

/-- Counterexample for C9: the claim asserts that an error propagated out of
run makes the process exit with a non-zero status; on a repository whose head
reference fails to resolve, the program prints the single diagnostic line but
the exit status is 0, because main returns unit on both branches of the
match. -/
theorem c9_exit_counterexample :
    main_behaviour default_args err_repo [.ok 3] = ([("error: boom")], 0) := rfl

/-- Claim C9 as amended: any error propagated out of run results in exactly
one diagnostic line "error: <message>" appended to the lines already printed,
and the process exits with status 0 (the error is not reflected in the exit
status); in normal operation only the stats lines of run are printed, again
with exit status 0. -/
theorem c9_diagnostic_line (args : Args) (repo : Repo) (walk : List (Except GitError Nat))
    (lines : List String) (e : GitError) :
    (run args repo walk = (lines, some e) →
      main_behaviour args repo walk = (lines ++ [("error: ") ++ e.msg], 0)) ∧
    (run args repo walk = (lines, none) → main_behaviour args repo walk = (lines, 0)) := by
  constructor <;> intro h <;> simp [main_behaviour, h]

/-- Witness for C9 on the broken-head repository and on a normal patch-mode
run of the linear repository. -/
theorem c9_witness :
    main_behaviour default_args err_repo [] = ([("error: ") ++ ("boom")], 0) ∧
    main_behaviour patch_args linear_repo [.ok 2] =
      ([("\x7b\"f\":1,\"i\":2,\"d\":0\x7d")], 0) :=
  ⟨(c9_diagnostic_line default_args err_repo [] [] { msg := "boom" }).1 rfl,
   (c9_diagnostic_line patch_args linear_repo [.ok 2]
      [("\x7b\"f\":1,\"i\":2,\"d\":0\x7d")] { msg := "" }).2 rfl⟩

/-- Claim C10: the advertised --author, --committer and --grep options have
no effect — two option sets agreeing on every Args field produce identical
output lines and identical exit behaviour, because deserialisation into Args
discards those three options. -/
theorem c10_discarded_options (o1 o2 : CliOptions) (repo : Repo)
    (walk : List (Except GitError Nat)) (hbase : o1.base = o2.base) :
    main_behaviour (CliOptions.to_args o1) repo walk =
      main_behaviour (CliOptions.to_args o2) repo walk := by
  simp [CliOptions.to_args, hbase]

/-- Witness for C10: an --author value on one side and a --grep value on the
other leave a concrete run unchanged. -/
theorem c10_witness :
    main_behaviour
        (CliOptions.to_args
          { base := default_args, flag_author := some ("alice"),
            flag_committer := none, flag_grep := none })
        linear_repo [.ok 1] =
      main_behaviour
        (CliOptions.to_args
          { base := default_args, flag_author := none,
            flag_committer := none, flag_grep := some ("fix") })
        linear_repo [.ok 1] :=
  c10_discarded_options
    { base := default_args, flag_author := some ("alice"),
      flag_committer := none, flag_grep := none }
    { base := default_args, flag_author := none,
      flag_committer := none, flag_grep := some ("fix") }
    linear_repo [.ok 1] rfl

end ShortstatDump
